import Mathlib

/-!
Verification of the DRBD flexvolume driver dispatcher (`pkg/api/api.go`).

The dispatcher `Call` receives the process argument vector, validates the
action name and argument count, parses the JSON options blob, invokes the
external cluster manager / mounter (package `drbd`, modelled here as an
explicit `Env` of oracles since only its call sites are part of the
dispatcher), and renders a single JSON envelope plus an exit code.  The
embedding additionally records the list of external calls performed
(`trace`), so that "no side effect" properties are statable.
-/

namespace DrbdFlexvolume

/-! ### JSON values, as Go `encoding/json` sees them

Numbers carry no payload: unmarshalling into the `options` struct only needs
to know a value's kind (a number in a string-typed field is a type error). -/

inductive JVal where
  | null
  | bool (b : Bool)
  | num
  | str (s : String)
  | arr (elems : List JVal)
  | obj (members : List (String × JVal))

def isWsChar (c : Char) : Bool := c = ' ' || c = '\t' || c = '\n' || c = '\r'

def skipWs : List Char → List Char
  | [] => []
  | c :: cs => if isWsChar c then skipWs cs else c :: cs

def isDigitChar (c : Char) : Bool := '0' ≤ c && c ≤ '9'

def takeDigits : List Char → List Char × List Char
  | [] => ([], [])
  | c :: cs =>
    if isDigitChar c then
      let p := takeDigits cs
      (c :: p.1, p.2)
    else ([], c :: cs)

def hexDigitVal (c : Char) : Option Nat :=
  if '0' ≤ c && c ≤ '9' then some (c.toNat - 48)
  else if 'a' ≤ c && c ≤ 'f' then some (c.toNat - 97 + 10)
  else if 'A' ≤ c && c ≤ 'F' then some (c.toNat - 65 + 10)
  else none

/-- Body of a JSON string after the opening quote.  Escapes as in Go
(`\" \\ \/ \b \f \n \r \t \uXXXX`); an unescaped control character is a
parse error; a `\u` escape in the surrogate range is simplified to U+FFFD
(Go pairs surrogates, which no input in this development exercises). -/
def parseJStr : Nat → List Char → List Char → Option (String × List Char)
  | 0, _, _ => none
  | _ + 1, _, [] => none
  | fuel + 1, acc, c :: cs =>
    if c = '"' then some (String.mk acc.reverse, cs)
    else if c = '\\' then
      match cs with
      | 'u' :: h1 :: h2 :: h3 :: h4 :: rest =>
        match hexDigitVal h1, hexDigitVal h2, hexDigitVal h3, hexDigitVal h4 with
        | some v1, some v2, some v3, some v4 =>
          let n := ((v1 * 16 + v2) * 16 + v3) * 16 + v4
          let ch := if 55296 ≤ n && n ≤ 57343 then Char.ofNat 65533 else Char.ofNat n
          parseJStr fuel (ch :: acc) rest
        | _, _, _, _ => none
      | e :: rest =>
        match (match e with
               | '"' => some '"'
               | '\\' => some '\\'
               | '/' => some '/'
               | 'b' => some (Char.ofNat 8)
               | 'f' => some (Char.ofNat 12)
               | 'n' => some '\n'
               | 'r' => some '\r'
               | 't' => some '\t'
               | _ => none) with
        | some ch => parseJStr fuel (ch :: acc) rest
        | none => none
      | [] => none
    else if c.toNat < 32 then none
    else parseJStr fuel (c :: acc) cs

def parseExpPart : List Char → Option (List Char)
  | 'e' :: r | 'E' :: r =>
    let r1 := match r with
      | '+' :: r2 => r2
      | '-' :: r2 => r2
      | _ => r
    (match takeDigits r1 with
     | ([], _) => none
     | (_ :: _, rest) => some rest)
  | cs => some cs

def parseFracExp : List Char → Option (List Char)
  | '.' :: r =>
    (match takeDigits r with
     | ([], _) => none
     | (_ :: _, rest) => parseExpPart rest)
  | cs => parseExpPart cs

/-- Go's number grammar: `-?(0|[1-9][0-9]*)(\.[0-9]+)?([eE][+-]?[0-9]+)?`.
Returns the remaining input when a valid number prefix is consumed. -/
def parseJNum (cs : List Char) : Option (List Char) :=
  let p1 := match cs with
    | '-' :: r => r
    | _ => cs
  match p1 with
  | c :: r =>
    if c = '0' then parseFracExp r
    else if isDigitChar c then parseFracExp (takeDigits r).2
    else none
  | [] => none

mutual

def parseJVal : Nat → List Char → Option (JVal × List Char)
  | 0, _ => none
  | fuel + 1, cs =>
    match skipWs cs with
    | [] => none
    | c :: r =>
      if c = '"' then
        match parseJStr (r.length + 1) [] r with
        | some (s, rest) => some (.str s, rest)
        | none => none
      else if c = 't' then
        match r with
        | 'r' :: 'u' :: 'e' :: rest => some (.bool true, rest)
        | _ => none
      else if c = 'f' then
        match r with
        | 'a' :: 'l' :: 's' :: 'e' :: rest => some (.bool false, rest)
        | _ => none
      else if c = 'n' then
        match r with
        | 'u' :: 'l' :: 'l' :: rest => some (.null, rest)
        | _ => none
      else if c = '\x7b' then
        match skipWs r with
        | c2 :: r2 =>
          if c2 = '\x7d' then some (.obj [], r2)
          else
            match parseJMembers fuel (c2 :: r2) with
            | some (ms, rest) => some (.obj ms, rest)
            | none => none
        | [] => none
      else if c = '[' then
        match skipWs r with
        | c2 :: r2 =>
          if c2 = ']' then some (.arr [], r2)
          else
            match parseJElems fuel (c2 :: r2) with
            | some (es, rest) => some (.arr es, rest)
            | none => none
        | [] => none
      else if c = '-' || isDigitChar c then
        match parseJNum (c :: r) with
        | some rest => some (.num, rest)
        | none => none
      else none

def parseJElems : Nat → List Char → Option (List JVal × List Char)
  | 0, _ => none
  | fuel + 1, cs =>
    match parseJVal fuel cs with
    | none => none
    | some (v, r) =>
      match skipWs r with
      | ',' :: r2 =>
        (match parseJElems fuel r2 with
         | some (vs, rest) => some (v :: vs, rest)
         | none => none)
      | ']' :: r2 => some ([v], r2)
      | _ => none

def parseJMembers : Nat → List Char → Option (List (String × JVal) × List Char)
  | 0, _ => none
  | fuel + 1, cs =>
    match skipWs cs with
    | '"' :: r =>
      (match parseJStr (r.length + 1) [] r with
       | none => none
       | some (k, r1) =>
         match skipWs r1 with
         | ':' :: r2 =>
           (match parseJVal fuel r2 with
            | none => none
            | some (v, r3) =>
              match skipWs r3 with
              | ',' :: r4 =>
                (match parseJMembers fuel r4 with
                 | some (ms, rest) => some ((k, v) :: ms, rest)
                 | none => none)
              | '\x7d' :: r4 => some ([(k, v)], r4)
              | _ => none)
         | _ => none)
    | _ => none

end

/-! ### Unmarshalling into the `options` struct

Go's `json.Unmarshal` into
`struct { FsType, Readwrite, Resource string }` (with the json tags of
`api.go`): top-level must be an object (or `null`, which leaves the zero
value); keys resolve by exact tag match, then ASCII-case-insensitive match,
and unknown keys are ignored; a matched field accepts a JSON string (or
`null`, a no-op) and rejects any other kind; later duplicates win. -/

structure Options where
  FsType : String
  Readwrite : String
  Resource : String
deriving DecidableEq

inductive OptField where
  | fs
  | rw
  | res
deriving DecidableEq

def asciiLower (c : Char) : Char :=
  if 'A' ≤ c && c ≤ 'Z' then Char.ofNat (c.toNat + 32) else c

def eqFold (a b : String) : Bool :=
  a.data.map asciiLower == b.data.map asciiLower

def fieldForKey (k : String) : Option OptField :=
  if k = "kubernetes.io/fsType" then some .fs
  else if k = "kubernetes.io/readwrite" then some .rw
  else if k = "resource" then some .res
  else if eqFold k "kubernetes.io/fsType" then some .fs
  else if eqFold k "kubernetes.io/readwrite" then some .rw
  else if eqFold k "resource" then some .res
  else none

def setOptField (o : Options) (f : OptField) (v : JVal) : Option Options :=
  match v with
  | .str s =>
    some (match f with
          | .fs => ⟨s, o.Readwrite, o.Resource⟩
          | .rw => ⟨o.FsType, s, o.Resource⟩
          | .res => ⟨o.FsType, o.Readwrite, s⟩)
  | .null => some o
  | _ => none

def applyMembers : List (String × JVal) → Options → Option Options
  | [], o => some o
  | (k, v) :: rest, o =>
    match fieldForKey k with
    | none => applyMembers rest o
    | some f =>
      match setOptField o f v with
      | none => none
      | some o2 => applyMembers rest o2

def unmarshalOptions (s : String) : Option Options :=
  let cs := s.data
  match parseJVal (2 * cs.length + 2) cs with
  | none => none
  | some (v, rest) =>
    if (skipWs rest).isEmpty then
      match v with
      | .obj ms => applyMembers ms ⟨"", "", ""⟩
      | .null => some ⟨"", "", ""⟩
      | _ => none
    else none

/-! ### Go formatting helpers -/

/-- `flexAPIErr.Error()`: the message wrapped by the api package (the typo
"Flexvoume" is the source's). -/
def flexAPIErr (m : String) : String := "DRBD Flexvoume API: " ++ m

def hexLowerDigit (n : Nat) : Char :=
  if n < 10 then Char.ofNat (48 + n) else Char.ofNat (87 + n)

/-- One character under Go's `%q` (`strconv.Quote`) escaping. -/
def goQuoteChar (c : Char) : String :=
  if c = '"' then "\\\""
  else if c = '\\' then "\\\\"
  else if c = '\n' then "\\n"
  else if c = '\r' then "\\r"
  else if c = '\t' then "\\t"
  else if c = Char.ofNat 7 then "\\a"
  else if c = Char.ofNat 8 then "\\b"
  else if c = Char.ofNat 12 then "\\f"
  else if c = Char.ofNat 11 then "\\v"
  else if c.toNat < 32 then
    "\\x" ++ String.mk [hexLowerDigit (c.toNat / 16), hexLowerDigit (c.toNat % 16)]
  else String.singleton c

/-- Go's `%q` of a string: double quotes around the escaped body. -/
def goQuote (s : String) : String :=
  "\"" ++ String.join (s.data.map goQuoteChar) ++ "\""

/-- One character under Go `json.Marshal` string encoding (which also
HTML-escapes `<`, `>`, `&`). -/
def jsonEscapeChar (c : Char) : String :=
  if c = '"' then "\\\""
  else if c = '\\' then "\\\\"
  else if c = '\n' then "\\n"
  else if c = '\r' then "\\r"
  else if c = '\t' then "\\t"
  else if c = '<' then "\\u003c"
  else if c = '>' then "\\u003e"
  else if c = '&' then "\\u0026"
  else if c.toNat < 32 then
    "\\u00" ++ String.mk [hexLowerDigit (c.toNat / 16), hexLowerDigit (c.toNat % 16)]
  else String.singleton c

def jsonEscape (s : String) : String := String.join (s.data.map jsonEscapeChar)

def jsonStr (s : String) : String := "\"" ++ jsonEscape s ++ "\""

/-- Go's `%s` of a `[]string`: elements joined by spaces in brackets. -/
def fmtStrSlice (s : List String) : String :=
  "[" ++ String.intercalate " " s ++ "]"

/-! ### The api package data model -/

/-- `parseOptions` of `api.go`: any `json.Unmarshal` failure becomes the
`flexAPIErr` whose `Error()` string echoes the raw input. -/
def parseOptions (s : String) : Except String Options :=
  match unmarshalOptions s with
  | some o => .ok o
  | none => .error (flexAPIErr ("couldn't parse options from " ++ s))

structure Resource where
  Name : String
  NodeName : String
deriving DecidableEq

/-- `drbd.Mounter`: holds a `*Resource` (of which the api package only ever
sets `Name`) and `FSType`. -/
structure Mounter where
  ResourceName : String
  FSType : String
deriving DecidableEq

/-- The envelope structs of `api.go`; `response` is the embedded base, the
other three append one action-specific field. -/
inductive Resp where
  | response (status message : String)
  | attachResponse (status message device : String)
  | isAttachedResponse (status message attached : String)
  | getVolNameResponse (status message volumeName : String)
deriving DecidableEq

def Resp.status : Resp → String
  | .response st _ => st
  | .attachResponse st _ _ => st
  | .isAttachedResponse st _ _ => st
  | .getVolNameResponse st _ _ => st

def Resp.message : Resp → String
  | .response _ m => m
  | .attachResponse _ m _ => m
  | .isAttachedResponse _ m _ => m
  | .getVolNameResponse _ m _ => m

/-- `json.Marshal` of the envelope structs: embedded fields first, in
declaration order, no `omitempty`. -/
def Resp.render : Resp → String
  | .response st m =>
    "\x7b\"status\":" ++ jsonStr st ++ ",\"message\":" ++ jsonStr m ++ "\x7d"
  | .attachResponse st m d =>
    "\x7b\"status\":" ++ jsonStr st ++ ",\"message\":" ++ jsonStr m ++
      ",\"device\":" ++ jsonStr d ++ "\x7d"
  | .isAttachedResponse st m a =>
    "\x7b\"status\":" ++ jsonStr st ++ ",\"message\":" ++ jsonStr m ++
      ",\"attached\":" ++ jsonStr a ++ "\x7d"
  | .getVolNameResponse st m v =>
    "\x7b\"status\":" ++ jsonStr st ++ ",\"message\":" ++ jsonStr m ++
      ",\"volumeName\":" ++ jsonStr v ++ "\x7d"

/-- One call against an external collaborator (package `drbd`). -/
inductive Eff where
  | assignRes (r : Resource)
  | waitForDevPath (r : Resource) (maxRetries : Nat)
  | unassignRes (r : Resource)
  | waitForAssignment (r : Resource) (maxRetries : Nat)
  | mount (m : Mounter) (path : String)
  | unMount (m : Mounter) (path : String)
deriving DecidableEq

/-- Behaviour of the external collaborators, one oracle per `drbd` entry
point used by `api.go`.  Error results carry the `err.Error()` string. -/
structure Env where
  assignRes : Resource → Except String Unit
  waitForDevPath : Resource → Nat → Except String String
  unassignRes : Resource → Option String
  waitForAssignment : Resource → Nat → Except String Bool
  mount : Mounter → String → Option String
  unMount : Mounter → String → Option String

/-- Envelope (structured, rendered by `Resp.render`), exit code, and the
sequence of external calls performed. -/
structure CallResult where
  resp : Resp
  code : Nat
  trace : List Eff
deriving DecidableEq

def tooFewArgsResponse (s : List String) : CallResult :=
  ⟨.response "Failure" (flexAPIErr (s.headD "" ++ ": too few arguments passed: " ++ fmtStrSlice s)),
   2, []⟩

/-- `attach` after a successful `AssignRes`: the `WaitForDevPath` call and its
two outcomes (`api.go` lines 140-155). -/
def waitForDevPathStep (env : Env) (resource : Resource) : CallResult :=
  match env.waitForDevPath resource 4 with
  | .error _ =>
    ⟨.response "Failure" (flexAPIErr ("attach: unable to find device path for resource " ++ goQuote resource.Name)),
     1, [.waitForDevPath resource 4]⟩
  | .ok path => ⟨.attachResponse "Success" "" path, 0, [.waitForDevPath resource 4]⟩

/-- `attach` after options parsing: the `AssignRes` call and its outcomes
(`api.go` lines 131-138), continuing with `waitForDevPathStep`. -/
def assignResStep (env : Env) (resource : Resource) : CallResult :=
  match env.assignRes resource with
  | .error _ =>
    ⟨.response "Failure" (flexAPIErr ("attach: failed to assign resource " ++ goQuote resource.Name)),
     1, [.assignRes resource]⟩
  | .ok _ =>
    let r := waitForDevPathStep env resource
    ⟨r.resp, r.code, .assignRes resource :: r.trace⟩

/-- `detach` body after the argument check: the `UnassignRes` call
(`api.go` lines 170-180). -/
def unassignResStep (env : Env) (resource : Resource) : CallResult :=
  match env.unassignRes resource with
  | some e => ⟨.response "Failure" e, 2, [.unassignRes resource]⟩
  | none => ⟨.response "Success" "", 0, [.unassignRes resource]⟩

/-- `mountDevice` after options parsing: the `Mount` call
(`api.go` lines 203-213). -/
def mountStep (env : Env) (mounter : Mounter) (target : String) : CallResult :=
  match env.mount mounter target with
  | some e =>
    ⟨.response "Failure" (flexAPIErr ("mountDevice: " ++ goQuote e)), 2, [.mount mounter target]⟩
  | none => ⟨.response "Success" "", 0, [.mount mounter target]⟩

/-- `unmount` after the argument check: the `UnMount` call on a zero-valued
`Mounter` (`api.go` lines 224-235). -/
def unMountStep (env : Env) (target : String) : CallResult :=
  match env.unMount ⟨"", ""⟩ target with
  | some e =>
    ⟨.response "Failure" (flexAPIErr ("unmount: " ++ e)), 1, [.unMount ⟨"", ""⟩ target]⟩
  | none => ⟨.response "Success" "", 0, [.unMount ⟨"", ""⟩ target]⟩

/-- `isAttached` after options parsing: the `WaitForAssignment` call and its
three outcomes (`api.go` lines 277-298). -/
def waitForAssignmentStep (env : Env) (resource : Resource) : CallResult :=
  match env.waitForAssignment resource 4 with
  | .error e => ⟨.response "Failure" e, 2, [.waitForAssignment resource 4]⟩
  | .ok false =>
    ⟨.response "Failure" (flexAPIErr ("resource " ++ goQuote resource.Name ++ " not attached")),
     2, [.waitForAssignment resource 4]⟩
  | .ok true =>
    ⟨.isAttachedResponse "Success" "" "true", 0, [.waitForAssignment resource 4]⟩

/-- `attach`: requires 3 arguments (`len(s) < 3` is the too-few check),
parses `s[1]` as options, builds the resource from the options' name and the
node name `s[2]`. -/
def attach (env : Env) : List String → CallResult
  | _ :: opt :: node :: _ =>
    (match parseOptions opt with
     | .error e => ⟨.response "Failure" e, 2, []⟩
     | .ok opts => assignResStep env ⟨opts.Resource, node⟩)
  | s => tooFewArgsResponse s

def waitForAttach (_env : Env) (_s : List String) : CallResult :=
  ⟨.response "Success" "", 0, []⟩

/-- `detach`: requires 3 arguments; the resource name is `s[1]` (no options
parsing), the node name `s[2]`. -/
def detach (env : Env) : List String → CallResult
  | _ :: name :: node :: _ => unassignResStep env ⟨name, node⟩
  | s => tooFewArgsResponse s

/-- `mountDevice`: requires 4 arguments; parses `s[3]` as options and mounts
at target path `s[1]` with a `Mounter` naming the resource and fs type. -/
def mountDevice (env : Env) : List String → CallResult
  | _ :: target :: _ :: opt :: _ =>
    (match parseOptions opt with
     | .error e => ⟨.response "Failure" e, 2, []⟩
     | .ok opts => mountStep env ⟨opts.Resource, opts.FsType⟩ target)
  | s => tooFewArgsResponse s

/-- `unmount`: requires 2 arguments; unmounts target path `s[1]`. -/
def unmount (env : Env) : List String → CallResult
  | _ :: target :: _ => unMountStep env target
  | s => tooFewArgsResponse s

/-- `unmountDevice` delegates to `unmount` unchanged (`api.go` line 217). -/
def unmountDevice (env : Env) (s : List String) : CallResult :=
  unmount env s

/-- `getVolumeName`: requires 2 arguments; parses `s[1]` and answers with the
options' resource name. -/
def getVolumeName (_env : Env) : List String → CallResult
  | _ :: opt :: _ =>
    (match parseOptions opt with
     | .error e => ⟨.response "Failure" e, 2, []⟩
     | .ok opts => ⟨.getVolNameResponse "Success" "" opts.Resource, 0, []⟩)
  | s => tooFewArgsResponse s

/-- `isAttached`: requires 3 arguments; parses `s[1]`, builds the resource
with node name `s[2]`, and polls assignment. -/
def isAttached (env : Env) : List String → CallResult
  | _ :: opt :: node :: _ =>
    (match parseOptions opt with
     | .error e => ⟨.response "Failure" e, 2, []⟩
     | .ok opts => waitForAssignmentStep env ⟨opts.Resource, node⟩)
  | s => tooFewArgsResponse s

def noActionMessage : String :=
  "No driver action! Valid actions are: init, attach, detach, mountdevice, unmountdevice, getvolumename, isattached"

def Call (env : Env) (s : List String) : CallResult :=
  match s with
  | [] => ⟨.response "Failure" noActionMessage, 2, []⟩
  | a :: _ =>
    if a = "init" then ⟨.response "Success" "", 0, []⟩
    else if a = "attach" then attach env s
    else if a = "waitforattach" then waitForAttach env s
    else if a = "detach" then detach env s
    else if a = "mountdevice" then mountDevice env s
    else if a = "unmountdevice" then unmountDevice env s
    else if a = "unmount" then unmount env s
    else if a = "getvolumename" then getVolumeName env s
    else if a = "isattached" then isAttached env s
    else ⟨.response "Not supported" ("Unsupported driver action: " ++ goQuote a), 2, []⟩

/-! ### Device path resolver (package `drbd`, modelled from the spec) -/

/-- Failure of the device path resolver: polling exhausted (`timeout`, naming
the resource) or a manager-level error from an individual query (`mgr`). -/
inductive DevPathErr where
  | timeout (resource : String)
  | mgr (msg : String)
deriving DecidableEq

/-- Modelled from the spec: `WaitForDevPath` lives in package `drbd`, which is
not among the sources here; design §4.2 describes it.  `query i` is the i-th
`queryDevicePath` poll (`.ok none` = not yet materialized); polling proceeds
up to the remaining attempt budget, a manager-level error short-circuits, and
an exhausted budget is a `timeout` naming the resource.  The second component
counts the polls actually performed. -/
def waitForDevicePathAux (query : Nat → Except String (Option String)) (resource : String) :
    Nat → Nat → Except DevPathErr String × Nat
  | _, 0 => (.error (.timeout resource), 0)
  | idx, fuel + 1 =>
    match query idx with
    | .error e => (.error (.mgr e), 1)
    | .ok (some p) => (.ok p, 1)
    | .ok none =>
      let r := waitForDevicePathAux query resource (idx + 1) fuel
      (r.1, r.2 + 1)

/-- Modelled from the spec: the §4.2 entry point, polling from attempt 0 with
`maxAttempts` budget. -/
def waitForDevicePath (query : Nat → Except String (Option String)) (resource : String)
    (maxAttempts : Nat) : Except DevPathErr String × Nat :=
  waitForDevicePathAux query resource 0 maxAttempts

/-! ### Action tables and concrete environments -/

/-- The actions that take arguments, with their required argument count
(including the action name itself), per the checks in `api.go`. -/
def requiredArgs : String → Nat
  | "attach" => 3
  | "detach" => 3
  | "mountdevice" => 4
  | "unmountdevice" => 2
  | "unmount" => 2
  | "getvolumename" => 2
  | "isattached" => 3
  | _ => 0

def argActions : List String :=
  ["attach", "detach", "mountdevice", "unmountdevice", "unmount", "getvolumename", "isattached"]

/-- The action names recognized by the dispatcher's switch. -/
def recognizedActions : List String :=
  ["init", "attach", "waitforattach", "detach", "mountdevice", "unmountdevice",
   "unmount", "getvolumename", "isattached"]

/-- The envelope produced whenever `parseOptions` fails on raw input `opt`. -/
def parseFailResult (opt : String) : CallResult :=
  ⟨.response "Failure" (flexAPIErr ("couldn't parse options from " ++ opt)), 2, []⟩

/-- An environment where every external call succeeds. -/
def trivialEnv : Env :=
  ⟨fun _ => .ok (), fun _ _ => .ok "/dev/drbd0", fun _ => none, fun _ _ => .ok true,
   fun _ _ => none, fun _ _ => none⟩

/-- An environment whose assignment waiter reports unassigned on every poll. -/
def unassignedEnv : Env :=
  ⟨fun _ => .ok (), fun _ _ => .ok "/dev/drbd0", fun _ => none, fun _ _ => .ok false,
   fun _ _ => none, fun _ _ => none⟩

/-- An environment whose cluster manager rejects assignment requests. -/
def failAssignEnv : Env :=
  ⟨fun _ => .error "rejected", fun _ _ => .ok "/dev/drbd0", fun _ => none, fun _ _ => .ok true,
   fun _ _ => none, fun _ _ => none⟩

/-- An environment where assignment succeeds but no device path ever
materializes (the bounded polling budget times out). -/
def noPathEnv : Env :=
  ⟨fun _ => .ok (), fun _ _ => .error "timeout", fun _ => none, fun _ _ => .ok true,
   fun _ _ => none, fun _ _ => none⟩

/-! ## Theorems -/

/-- C10: on the empty argument vector, `Call` returns a `Failure` envelope
whose message lists the valid actions, with exit code 2, and performs no
cluster-manager or mount call. -/
theorem call_empty_args_usage_failure (env : Env) :
    Call env [] =
      ⟨.response "Failure"
        "No driver action! Valid actions are: init, attach, detach, mountdevice, unmountdevice, getvolumename, isattached",
       2, []⟩ :=
  rfl

/-- C7 (counterexample): the claim fails at the empty argument tail: the
usage messages name different actions, so the envelopes differ. -/
theorem unmount_alias_counterexample :
    Call trivialEnv ["unmountdevice"] ≠ Call trivialEnv ["unmount"] ∧
    (Call trivialEnv ["unmountdevice"]).resp.message =
      "DRBD Flexvoume API: unmountdevice: too few arguments passed: [unmountdevice]" ∧
    (Call trivialEnv ["unmount"]).resp.message =
      "DRBD Flexvoume API: unmount: too few arguments passed: [unmount]" := by
  refine ⟨?_, rfl, rfl⟩
  decide

/-- C7 (amended): for every argument tail with at least one element,
`Call` on `unmountdevice` and on `unmount` return identical results (the
alias is exact once past the too-few-arguments check, whose message echoes
the action name). -/
theorem unmount_alias_on_nonempty_tail (env : Env) (target : String) (rest : List String) :
    Call env ("unmountdevice" :: target :: rest) = Call env ("unmount" :: target :: rest) :=
  rfl

/-- C2 (counterexample): the unsupported-action envelope carries status
`"Not supported"`, not `"NotSupported"` as claimed. -/
theorem unsupported_action_counterexample :
    (Call trivialEnv ["foo"]).resp.render ≠
      "\x7b\"status\":\"NotSupported\",\"message\":\"Unsupported driver action: \\\"foo\\\"\"\x7d" ∧
    (Call trivialEnv ["foo"]).resp.render =
      "\x7b\"status\":\"Not supported\",\"message\":\"Unsupported driver action: \\\"foo\\\"\"\x7d" := by
  refine ⟨?_, rfl⟩
  decide

/-- C2 (amended): for every argument vector whose first element is none of
the recognized action names, `Call` returns the envelope with status
`"Not supported"` and message `Unsupported driver action: "<action>"`
(the action rendered by Go's `%q`), exit code 2, and no external calls. -/
theorem unsupported_action_envelope (env : Env) (a : String) (tl : List String)
    (h : a ∉ recognizedActions) :
    Call env (a :: tl) =
      ⟨.response "Not supported" ("Unsupported driver action: " ++ goQuote a), 2, []⟩ := by
  simp only [recognizedActions, List.mem_cons, List.not_mem_nil, or_false, not_or] at h
  obtain ⟨h1, h2, h3, h4, h5, h6, h7, h8, h9⟩ := h
  simp only [Call, if_neg h1, if_neg h2, if_neg h3, if_neg h4, if_neg h5, if_neg h6,
    if_neg h7, if_neg h8, if_neg h9]

/-- C2 witness: the unrecognized action `"foo"`. -/
theorem unsupported_action_envelope_witness :
    Call trivialEnv ["foo"] =
      ⟨.response "Not supported" ("Unsupported driver action: " ++ goQuote "foo"), 2, []⟩ :=
  unsupported_action_envelope trivialEnv "foo" [] (by decide)

/-- C1: every argument-taking action invoked with fewer than its required
number of arguments yields a `Failure` envelope with exit code 2 and performs
no external (cluster-manager or mount/unmount) call. -/
theorem too_few_args_failure (env : Env) (a : String) (tl : List String)
    (hmem : a ∈ argActions) (hlen : (a :: tl).length < requiredArgs a) :
    (Call env (a :: tl)).resp.status = "Failure" ∧
    (Call env (a :: tl)).code = 2 ∧
    (Call env (a :: tl)).trace = [] := by
  fin_cases hmem <;>
    rcases tl with _ | ⟨a1, _ | ⟨a2, _ | ⟨a3, tl⟩⟩⟩ <;>
    first
      | exact ⟨rfl, rfl, rfl⟩
      | (exfalso; simp only [requiredArgs, List.length_cons] at hlen; omega)

/-- C1 witness: `attach` with no further arguments. -/
theorem too_few_args_failure_witness :
    (Call trivialEnv ["attach"]).resp.status = "Failure" ∧
    (Call trivialEnv ["attach"]).code = 2 ∧
    (Call trivialEnv ["attach"]).trace = [] :=
  too_few_args_failure trivialEnv "attach" [] (by decide) (by decide)

/-- C5: each action that parses an options argument (`attach`,
`mountdevice`, `getvolumename`, `isattached`), given enough arguments and an
options string that does not unmarshal, returns the `Failure` envelope whose
message is the parse error echoing the raw options string, with exit code 2
and no external calls. -/
theorem options_parse_failure (env : Env) (opt t1 t2 : String) (rest : List String)
    (hfail : unmarshalOptions opt = none) :
    Call env ("attach" :: opt :: t1 :: rest) = parseFailResult opt ∧
    Call env ("mountdevice" :: t1 :: t2 :: opt :: rest) = parseFailResult opt ∧
    Call env ("getvolumename" :: opt :: rest) = parseFailResult opt ∧
    Call env ("isattached" :: opt :: t1 :: rest) = parseFailResult opt := by
  have hp : parseOptions opt = .error (flexAPIErr ("couldn't parse options from " ++ opt)) := by
    unfold parseOptions
    rw [hfail]
  refine ⟨?_, ?_, ?_, ?_⟩
  · show attach env ("attach" :: opt :: t1 :: rest) = parseFailResult opt
    simp only [attach, hp]
    rfl
  · show mountDevice env ("mountdevice" :: t1 :: t2 :: opt :: rest) = parseFailResult opt
    simp only [mountDevice, hp]
    rfl
  · show getVolumeName env ("getvolumename" :: opt :: rest) = parseFailResult opt
    simp only [getVolumeName, hp]
    rfl
  · show isAttached env ("isattached" :: opt :: t1 :: rest) = parseFailResult opt
    simp only [isAttached, hp]
    rfl

/-- C5 witness: the malformed options string `"notjson"`. -/
theorem options_parse_failure_witness :
    Call trivialEnv ["attach", "notjson", "nodeA"] = parseFailResult "notjson" ∧
    (parseFailResult "notjson").resp.message =
      "DRBD Flexvoume API: couldn't parse options from notjson" ∧
    (parseFailResult "notjson").code = 2 ∧
    (parseFailResult "notjson").trace = [] :=
  ⟨(options_parse_failure trivialEnv "notjson" "nodeA" "" [] (by decide)).1, rfl, rfl, rfl⟩

/-- C3 (counterexample): in the not-attached scenario the message is not the
claimed `resource "r0" not attached`: the api wraps it in its error prefix. -/
theorem isattached_message_counterexample :
    (Call unassignedEnv ["isattached", "\x7b\"resource\":\"r0\"\x7d", "nodeA"]).resp.render ≠
      "\x7b\"status\":\"Failure\",\"message\":\"resource \\\"r0\\\" not attached\"\x7d" ∧
    (Call unassignedEnv ["isattached", "\x7b\"resource\":\"r0\"\x7d", "nodeA"]).resp.render =
      "\x7b\"status\":\"Failure\",\"message\":\"DRBD Flexvoume API: resource \\\"r0\\\" not attached\"\x7d" := by
  refine ⟨?_, rfl⟩
  decide

/-- C3 (amended): an `isattached` invocation with options
`\x7b"resource":"r0"\x7d` and a node name, where `WaitForAssignment` reports
`false` without error, returns the `Failure` envelope with message
`DRBD Flexvoume API: resource "r0" not attached` and exit code 2. -/
theorem isattached_not_attached (env : Env) (node : String)
    (h : env.waitForAssignment ⟨"r0", node⟩ 4 = .ok false) :
    Call env ["isattached", "\x7b\"resource\":\"r0\"\x7d", node] =
      ⟨.response "Failure" "DRBD Flexvoume API: resource \"r0\" not attached", 2,
       [.waitForAssignment ⟨"r0", node⟩ 4]⟩ := by
  show waitForAssignmentStep env ⟨"r0", node⟩ = _
  simp only [waitForAssignmentStep, h]
  rfl

/-- C3 witness: the environment that reports unassigned on every poll, at
node `nodeA`. -/
theorem isattached_not_attached_witness :
    Call unassignedEnv ["isattached", "\x7b\"resource\":\"r0\"\x7d", "nodeA"] =
      ⟨.response "Failure" "DRBD Flexvoume API: resource \"r0\" not attached", 2,
       [.waitForAssignment ⟨"r0", "nodeA"⟩ 4]⟩ :=
  isattached_not_attached unassignedEnv "nodeA" rfl

/-- C6: `getvolumename` with options
`\x7b"resource":"r0","kubernetes.io/fsType":"ext4"\x7d` answers `Success`
with volume name `r0` and exit code 0; and on any two well-formed options
strings naming the same resource the result is identical, so it does not
depend on the fsType field. -/
theorem getvolumename_resource_only (env : Env) (s1 s2 : String) (o1 o2 : Options)
    (rest : List String) (h1 : parseOptions s1 = .ok o1) (h2 : parseOptions s2 = .ok o2)
    (hres : o1.Resource = o2.Resource) :
    Call env ["getvolumename", "\x7b\"resource\":\"r0\",\"kubernetes.io/fsType\":\"ext4\"\x7d"] =
      ⟨.getVolNameResponse "Success" "" "r0", 0, []⟩ ∧
    Call env ("getvolumename" :: s1 :: rest) = Call env ("getvolumename" :: s2 :: rest) := by
  constructor
  · rfl
  · show getVolumeName env ("getvolumename" :: s1 :: rest) =
        getVolumeName env ("getvolumename" :: s2 :: rest)
    simp only [getVolumeName, h1, h2, hres]

/-- C6 witness: the same resource with fsType `ext4` and `xfs`. -/
theorem getvolumename_resource_only_witness :
    Call trivialEnv ["getvolumename", "\x7b\"resource\":\"r0\",\"kubernetes.io/fsType\":\"ext4\"\x7d"] =
      ⟨.getVolNameResponse "Success" "" "r0", 0, []⟩ ∧
    Call trivialEnv ["getvolumename", "\x7b\"resource\":\"r0\",\"kubernetes.io/fsType\":\"ext4\"\x7d"] =
      Call trivialEnv ["getvolumename", "\x7b\"resource\":\"r0\",\"kubernetes.io/fsType\":\"xfs\"\x7d"] :=
  getvolumename_resource_only trivialEnv
    "\x7b\"resource\":\"r0\",\"kubernetes.io/fsType\":\"ext4\"\x7d"
    "\x7b\"resource\":\"r0\",\"kubernetes.io/fsType\":\"xfs\"\x7d"
    ⟨"ext4", "", "r0"⟩ ⟨"xfs", "", "r0"⟩ [] rfl rfl rfl

/-- C8: an `attach` with enough arguments and well-formed options that fails
at the cluster manager — assignment rejected, or no device path within the
polling budget — produces a `Failure` envelope with exit code 1, not 2. -/
theorem attach_operational_failure_exit1 (env : Env) (opt node : String) (rest : List String)
    (o : Options) (hp : parseOptions opt = .ok o)
    (hfail : (∃ e, env.assignRes ⟨o.Resource, node⟩ = .error e) ∨
             (env.assignRes ⟨o.Resource, node⟩ = .ok () ∧
              ∃ e, env.waitForDevPath ⟨o.Resource, node⟩ 4 = .error e)) :
    (Call env ("attach" :: opt :: node :: rest)).resp.status = "Failure" ∧
    (Call env ("attach" :: opt :: node :: rest)).code = 1 := by
  have e1 : Call env ("attach" :: opt :: node :: rest) = assignResStep env ⟨o.Resource, node⟩ := by
    show attach env ("attach" :: opt :: node :: rest) = _
    simp only [attach, hp]
  rw [e1]
  rcases hfail with ⟨e, he⟩ | ⟨hok, e, he⟩
  · unfold assignResStep
    rw [he]
    exact ⟨rfl, rfl⟩
  · unfold assignResStep waitForDevPathStep
    rw [hok, he]
    exact ⟨rfl, rfl⟩

/-- C8 witness: a cluster manager that rejects the assignment request. -/
theorem attach_operational_failure_exit1_witness :
    (Call failAssignEnv ["attach", "\x7b\"resource\":\"r0\"\x7d", "nodeA"]).resp.status = "Failure" ∧
    (Call failAssignEnv ["attach", "\x7b\"resource\":\"r0\"\x7d", "nodeA"]).code = 1 :=
  attach_operational_failure_exit1 failAssignEnv "\x7b\"resource\":\"r0\"\x7d" "nodeA" []
    ⟨"", "", "r0"⟩ rfl (Or.inl ⟨"rejected", rfl⟩)

/-! Helper lemmas for the Success-implies-empty-message invariant: one per
external-call step, then one per handler. -/

theorem failure_ne_success : ("Failure" : String) ≠ "Success" := by decide

theorem not_supported_ne_success : ("Not supported" : String) ≠ "Success" := by decide

theorem waitForDevPathStep_sm (env : Env) (r : Resource)
    (h : (waitForDevPathStep env r).resp.status = "Success") :
    (waitForDevPathStep env r).resp.message = "" := by
  revert h
  unfold waitForDevPathStep
  cases env.waitForDevPath r 4 <;> intro h
  · exact absurd (show ("Failure" : String) = "Success" from h) failure_ne_success
  · rfl

theorem assignResStep_sm (env : Env) (r : Resource)
    (h : (assignResStep env r).resp.status = "Success") :
    (assignResStep env r).resp.message = "" := by
  revert h
  unfold assignResStep
  cases env.assignRes r <;> intro h
  · exact absurd (show ("Failure" : String) = "Success" from h) failure_ne_success
  · exact waitForDevPathStep_sm env r h

theorem unassignResStep_sm (env : Env) (r : Resource)
    (h : (unassignResStep env r).resp.status = "Success") :
    (unassignResStep env r).resp.message = "" := by
  revert h
  unfold unassignResStep
  cases env.unassignRes r <;> intro h
  · rfl
  · exact absurd (show ("Failure" : String) = "Success" from h) failure_ne_success

theorem mountStep_sm (env : Env) (m : Mounter) (t : String)
    (h : (mountStep env m t).resp.status = "Success") :
    (mountStep env m t).resp.message = "" := by
  revert h
  unfold mountStep
  cases env.mount m t <;> intro h
  · rfl
  · exact absurd (show ("Failure" : String) = "Success" from h) failure_ne_success

theorem unMountStep_sm (env : Env) (t : String)
    (h : (unMountStep env t).resp.status = "Success") :
    (unMountStep env t).resp.message = "" := by
  revert h
  unfold unMountStep
  cases env.unMount ⟨"", ""⟩ t <;> intro h
  · rfl
  · exact absurd (show ("Failure" : String) = "Success" from h) failure_ne_success

theorem waitForAssignmentStep_sm (env : Env) (r : Resource)
    (h : (waitForAssignmentStep env r).resp.status = "Success") :
    (waitForAssignmentStep env r).resp.message = "" := by
  revert h
  unfold waitForAssignmentStep
  cases env.waitForAssignment r 4 <;> rename_i x
  · intro h
    exact absurd (show ("Failure" : String) = "Success" from h) failure_ne_success
  · cases x <;> intro h
    · exact absurd (show ("Failure" : String) = "Success" from h) failure_ne_success
    · rfl

theorem attach_sm (env : Env) (s : List String)
    (h : (attach env s).resp.status = "Success") :
    (attach env s).resp.message = "" := by
  rcases s with _ | ⟨a, _ | ⟨opt, _ | ⟨node, rest⟩⟩⟩
  · exact absurd (show ("Failure" : String) = "Success" from h) failure_ne_success
  · exact absurd (show ("Failure" : String) = "Success" from h) failure_ne_success
  · exact absurd (show ("Failure" : String) = "Success" from h) failure_ne_success
  · revert h
    simp only [attach]
    cases parseOptions opt <;> intro h
    · exact absurd (show ("Failure" : String) = "Success" from h) failure_ne_success
    · exact assignResStep_sm env _ h

theorem detach_sm (env : Env) (s : List String)
    (h : (detach env s).resp.status = "Success") :
    (detach env s).resp.message = "" := by
  rcases s with _ | ⟨a, _ | ⟨name, _ | ⟨node, rest⟩⟩⟩
  · exact absurd (show ("Failure" : String) = "Success" from h) failure_ne_success
  · exact absurd (show ("Failure" : String) = "Success" from h) failure_ne_success
  · exact absurd (show ("Failure" : String) = "Success" from h) failure_ne_success
  · exact unassignResStep_sm env _ h

theorem mountDevice_sm (env : Env) (s : List String)
    (h : (mountDevice env s).resp.status = "Success") :
    (mountDevice env s).resp.message = "" := by
  rcases s with _ | ⟨a, _ | ⟨t1, _ | ⟨t2, _ | ⟨opt, rest⟩⟩⟩⟩
  · exact absurd (show ("Failure" : String) = "Success" from h) failure_ne_success
  · exact absurd (show ("Failure" : String) = "Success" from h) failure_ne_success
  · exact absurd (show ("Failure" : String) = "Success" from h) failure_ne_success
  · exact absurd (show ("Failure" : String) = "Success" from h) failure_ne_success
  · revert h
    simp only [mountDevice]
    cases parseOptions opt <;> intro h
    · exact absurd (show ("Failure" : String) = "Success" from h) failure_ne_success
    · exact mountStep_sm env _ _ h

theorem unmount_sm (env : Env) (s : List String)
    (h : (unmount env s).resp.status = "Success") :
    (unmount env s).resp.message = "" := by
  rcases s with _ | ⟨a, _ | ⟨t, rest⟩⟩
  · exact absurd (show ("Failure" : String) = "Success" from h) failure_ne_success
  · exact absurd (show ("Failure" : String) = "Success" from h) failure_ne_success
  · exact unMountStep_sm env _ h

theorem getVolumeName_sm (env : Env) (s : List String)
    (h : (getVolumeName env s).resp.status = "Success") :
    (getVolumeName env s).resp.message = "" := by
  rcases s with _ | ⟨a, _ | ⟨opt, rest⟩⟩
  · exact absurd (show ("Failure" : String) = "Success" from h) failure_ne_success
  · exact absurd (show ("Failure" : String) = "Success" from h) failure_ne_success
  · revert h
    simp only [getVolumeName]
    cases parseOptions opt <;> intro h
    · exact absurd (show ("Failure" : String) = "Success" from h) failure_ne_success
    · rfl

theorem isAttached_sm (env : Env) (s : List String)
    (h : (isAttached env s).resp.status = "Success") :
    (isAttached env s).resp.message = "" := by
  rcases s with _ | ⟨a, _ | ⟨opt, _ | ⟨node, rest⟩⟩⟩
  · exact absurd (show ("Failure" : String) = "Success" from h) failure_ne_success
  · exact absurd (show ("Failure" : String) = "Success" from h) failure_ne_success
  · exact absurd (show ("Failure" : String) = "Success" from h) failure_ne_success
  · revert h
    simp only [isAttached]
    cases parseOptions opt <;> intro h
    · exact absurd (show ("Failure" : String) = "Success" from h) failure_ne_success
    · exact waitForAssignmentStep_sm env _ h

/-- C4: for every argument vector and every behaviour of the external
cluster manager and mounter, the single envelope produced by `Call`
satisfies: a `Success` status comes with an empty message. -/
theorem success_implies_empty_message (env : Env) (s : List String)
    (h : (Call env s).resp.status = "Success") :
    (Call env s).resp.message = "" := by
  rcases s with _ | ⟨a, tl⟩
  · exact absurd (show ("Failure" : String) = "Success" from h) failure_ne_success
  · revert h
    simp only [Call]
    split_ifs <;> intro h
    · rfl
    · exact attach_sm env _ h
    · rfl
    · exact detach_sm env _ h
    · exact mountDevice_sm env _ h
    · exact unmount_sm env _ h
    · exact unmount_sm env _ h
    · exact getVolumeName_sm env _ h
    · exact isAttached_sm env _ h
    · exact absurd (show ("Not supported" : String) = "Success" from h) not_supported_ne_success

/-- C4 witness: `init` succeeds with an empty message. -/
theorem success_implies_empty_message_witness :
    (Call trivialEnv ["init"]).resp.message = "" :=
  success_implies_empty_message trivialEnv ["init"] rfl

/-! Polling lemmas for the device path resolver, generalized over the start
index so the induction goes through. -/

theorem wfdpAux_success (query : Nat → Except String (Option String)) (res path : String) :
    ∀ (n : Nat), ∀ (fuel idx : Nat), n < fuel →
      (∀ j, j < n → query (idx + j) = .ok none) →
      query (idx + n) = .ok (some path) →
      waitForDevicePathAux query res idx fuel = (.ok path, n + 1) := by
  intro n
  induction n with
  | zero =>
    intro fuel idx hlt hnone hq
    cases fuel with
    | zero => exact absurd hlt (Nat.not_lt_zero _)
    | succ fuel =>
      simp only [Nat.add_zero] at hq
      simp only [waitForDevicePathAux]
      rw [hq]
  | succ n ih =>
    intro fuel idx hlt hnone hq
    cases fuel with
    | zero => exact absurd hlt (Nat.not_lt_zero _)
    | succ fuel =>
      have h0 : query idx = .ok none := by
        have h2 := hnone 0 (Nat.succ_pos n)
        simpa using h2
      simp only [waitForDevicePathAux]
      rw [h0]
      have ih2 := ih fuel (idx + 1) (Nat.lt_of_succ_lt_succ hlt)
        (fun j hj => by
          have h2 := hnone (j + 1) (Nat.succ_lt_succ hj)
          have e2 : idx + (j + 1) = idx + 1 + j := by omega
          rwa [e2] at h2)
        (by
          have e2 : idx + (n + 1) = idx + 1 + n := by omega
          rwa [e2] at hq)
      rw [ih2]

theorem wfdpAux_timeout (query : Nat → Except String (Option String)) (res : String) :
    ∀ (fuel idx : Nat),
      (∀ j, j < fuel → query (idx + j) = .ok none) →
      waitForDevicePathAux query res idx fuel = (.error (.timeout res), fuel) := by
  intro fuel
  induction fuel with
  | zero => intro idx _; rfl
  | succ fuel ih =>
    intro idx h
    have h0 : query idx = .ok none := by
      have h2 := h 0 (Nat.succ_pos fuel)
      simpa using h2
    simp only [waitForDevicePathAux]
    rw [h0]
    have ih2 := ih (idx + 1) (fun j hj => by
      have h2 := h (j + 1) (Nat.succ_lt_succ hj)
      have e2 : idx + (j + 1) = idx + 1 + j := by omega
      rwa [e2] at h2)
    rw [ih2]

theorem wfdpAux_error (query : Nat → Except String (Option String)) (res e : String) :
    ∀ (k : Nat), ∀ (fuel idx : Nat), k < fuel →
      (∀ j, j < k → query (idx + j) = .ok none) →
      query (idx + k) = .error e →
      waitForDevicePathAux query res idx fuel = (.error (.mgr e), k + 1) := by
  intro k
  induction k with
  | zero =>
    intro fuel idx hlt hnone hq
    cases fuel with
    | zero => exact absurd hlt (Nat.not_lt_zero _)
    | succ fuel =>
      simp only [Nat.add_zero] at hq
      simp only [waitForDevicePathAux]
      rw [hq]
  | succ k ih =>
    intro fuel idx hlt hnone hq
    cases fuel with
    | zero => exact absurd hlt (Nat.not_lt_zero _)
    | succ fuel =>
      have h0 : query idx = .ok none := by
        have h2 := hnone 0 (Nat.succ_pos k)
        simpa using h2
      simp only [waitForDevicePathAux]
      rw [h0]
      have ih2 := ih fuel (idx + 1) (Nat.lt_of_succ_lt_succ hlt)
        (fun j hj => by
          have h2 := hnone (j + 1) (Nat.succ_lt_succ hj)
          have e2 : idx + (j + 1) = idx + 1 + j := by omega
          rwa [e2] at h2)
        (by
          have e2 : idx + (k + 1) = idx + 1 + k := by omega
          rwa [e2] at hq)
      rw [ih2]

/-- C9 (spec-modelled): the device path resolver returns the path on the Nth
poll when the first N-1 polls report no path and the Nth (still within the
budget) reports one, having made exactly N polls; it fails with a timeout
naming the resource after exactly `maxAttempts` fruitless polls; and a
manager-level error at poll k (the earlier polls reporting no path)
short-circuits immediately, after k+1 polls. -/
theorem waitForDevicePath_polls (query : Nat → Except String (Option String))
    (resource path e : String) (maxAttempts N k : Nat) :
    (1 ≤ N → N ≤ maxAttempts →
      (∀ i, i + 1 < N → query i = .ok none) →
      query (N - 1) = .ok (some path) →
      waitForDevicePath query resource maxAttempts = (.ok path, N)) ∧
    ((∀ i, i < maxAttempts → query i = .ok none) →
      waitForDevicePath query resource maxAttempts = (.error (.timeout resource), maxAttempts)) ∧
    (k < maxAttempts →
      (∀ i, i < k → query i = .ok none) →
      query k = .error e →
      waitForDevicePath query resource maxAttempts = (.error (.mgr e), k + 1)) := by
  refine ⟨?_, ?_, ?_⟩
  · intro h1 h2 hnone hq
    have hmain := wfdpAux_success query resource path (N - 1) maxAttempts 0
      (by omega)
      (fun j hj => by
        have h3 := hnone j (by omega)
        simpa using h3)
      (by simpa using hq)
    have e2 : N - 1 + 1 = N := by omega
    rw [e2] at hmain
    exact hmain
  · intro hq
    exact wfdpAux_timeout query resource maxAttempts 0 (fun j hj => by simpa using hq j hj)
  · intro hk hnone hq
    exact wfdpAux_error query resource e k maxAttempts 0 hk
      (fun j hj => by simpa using hnone j hj)
      (by simpa using hq)

/-- Poll sequences for the C9 witness: path on the second poll; never a
path; a manager error on the second poll. -/
def pathOnSecondPoll : Nat → Except String (Option String) :=
  fun i => if i = 1 then .ok (some "/dev/drbd0") else .ok none

def neverAPath : Nat → Except String (Option String) :=
  fun _ => .ok none

def errorOnSecondPoll : Nat → Except String (Option String) :=
  fun i => if i = 1 then .error "manager down" else .ok none

/-- C9 witness: the three scenarios at `maxAttempts = 4`. -/
theorem waitForDevicePath_polls_witness :
    waitForDevicePath pathOnSecondPoll "r0" 4 = (.ok "/dev/drbd0", 2) ∧
    waitForDevicePath neverAPath "r0" 4 = (.error (.timeout "r0"), 4) ∧
    waitForDevicePath errorOnSecondPoll "r0" 4 = (.error (.mgr "manager down"), 2) := by
  refine ⟨?_, ?_, ?_⟩
  · exact (waitForDevicePath_polls pathOnSecondPoll "r0" "/dev/drbd0" "" 4 2 0).1
      (by omega) (by omega)
      (fun i hi => by
        have h2 : i = 0 := by omega
        subst h2
        rfl)
      rfl
  · exact (waitForDevicePath_polls neverAPath "r0" "" "" 4 0 0).2.1 (fun i _ => rfl)
  · exact (waitForDevicePath_polls errorOnSecondPoll "r0" "" "manager down" 4 0 1).2.2
      (by omega)
      (fun i hi => by
        have h2 : i = 0 := by omega
        subst h2
        rfl)
      rfl

end DrbdFlexvolume
